import Mathlib

/-!
Verification of the ARN protocol core (heathweaver/arn-protocol).

Shallow embedding of:
* the wire codec (pkg/protocol/types.go): Message, Serialize, Deserialize;
* the protocol handler (pkg/protocol/handler.go): registries, registration,
  message dispatch.  Go's JSON (un)marshalling of handler payloads is
  modelled abstractly by a tagged PayloadData type whose decoders are the
  partial inverses of the tags;
* the TCP connection path of the network server (pkg/network/server.go).

Machine integers are modelled as Nat/Int with explicit reduction modulo
2^32 / 2^64 exactly where the Go code truncates; Go byte slices are
List (Fin 256); Go maps are association lists with last-write-wins
insertion; fallible Go functions return Except String.
-/

set_option maxRecDepth 8000

namespace ARN

/-- A Go byte. -/
abbrev Byte := Fin 256

/-- Big-endian bytes of a machine integer, width w bytes
(binary.BigEndian.PutUint32 / PutUint64). -/
def beBytes : Nat → Nat → List Byte
  | 0, _ => []
  | w + 1, v => ⟨v / 256 ^ w % 256, Nat.mod_lt _ (by decide)⟩ :: beBytes w v

/-- Big-endian read of a byte list
(binary.BigEndian.Uint32 / Uint64 on its first bytes). -/
def beRead : List Byte → Nat
  | [] => 0
  | b :: bs => b.val * 256 ^ bs.length + beRead bs

/-- Message (types.go): Version and Type are uint8, PayloadSize uint32,
Payload a byte slice, Timestamp held as its nanosecond Unix value
(time.Time with nanosecond resolution). -/
structure Message where
  version : Byte
  type : Byte
  payloadSize : Nat
  payload : List Byte
  timestamp : Int
deriving DecidableEq

/-- Protocol version V1. -/
def V1 : Byte := 1

/-- Go's uint64(int64 value): two's-complement reduction modulo 2^64. -/
def toUint64 (t : Int) : Nat := (t % 2 ^ 64).toNat

/-- Go's int64(uint64 value): two's-complement reinterpretation. -/
def int64OfUint64 (n : Nat) : Int :=
  if n < 2 ^ 63 then (n : Int) else (n : Int) - 2 ^ 64

/-- Message.Serialize (types.go): guard the payload length against uint32,
then emit version, type, 4-byte big-endian length, payload, 8-byte
big-endian uint64(UnixNano). -/
def Message.Serialize (m : Message) : Except String (List Byte) :=
  if m.payload.length > 2 ^ 32 - 1 then .error "payload too large"
  else .ok (m.version :: m.type ::
    (beBytes 4 m.payload.length ++ m.payload ++ beBytes 8 (toUint64 m.timestamp)))

/-- The declared payload size of a wire buffer:
binary.BigEndian.Uint32(data[2:6]). -/
def declaredSize (data : List Byte) : Nat := beRead ((data.drop 2).take 4)

/-- Outcome of Go's Deserialize as observed by its caller: the returned
(message, nil), the returned (nil, error), or a runtime panic raised by an
out-of-range slice index. -/
inductive DeserializeResult where
  | ok (m : Message)
  | error (e : String)
  | panicked (reason : String)
deriving DecidableEq

/-- Deserialize (types.go).  The length check is the Go comparison
uint32(len(data)) != 6 + PayloadSize + 8 carried out in uint32 arithmetic,
hence both sides reduced modulo 2^32.  The payload and timestamp are then
sliced as data[6 : 6+PayloadSize] and data[6+PayloadSize:], where the index
6+PayloadSize is again computed in uint32 arithmetic: when it wraps below 6
(declared size at least 2^32 - 6) or exceeds the buffer length, the slice
expression panics at run time instead of returning an error.  Under that
bounds check the index did not wrap, so 6+PayloadSize - 6 = PayloadSize and
Go's make+copy yields exactly the slice's bytes; BigEndian.Uint64 panics
when fewer than 8 bytes remain after the payload. -/
def Deserialize (data : List Byte) : DeserializeResult :=
  if data.length < 14 then .error "message too short"
  else if data.length % 2 ^ 32 ≠ (6 + declaredSize data + 8) % 2 ^ 32 then
    .error "invalid message size"
  else if (6 + declaredSize data) % 2 ^ 32 < 6 ∨
      data.length < (6 + declaredSize data) % 2 ^ 32 then
    .panicked "slice bounds out of range"
  else if data.length - (6 + declaredSize data) % 2 ^ 32 < 8 then
    .panicked "index out of range"
  else .ok
    { version := data.getD 0 0
      type := data.getD 1 0
      payloadSize := declaredSize data
      payload := (data.drop 6).take ((6 + declaredSize data) % 2 ^ 32 - 6)
      timestamp := int64OfUint64
        (beRead ((data.drop ((6 + declaredSize data) % 2 ^ 32)).take 8)) }

/-! Handler layer (pkg/protocol/handler.go).  Message types and error codes
are the Go constants; note that Go iota keeps counting across the blank
lines inside one const block, so the 2xx/3xx/4xx error codes are offset. -/

/-- MessageType constants (types.go), uint8. -/

def Hello : Byte := 1

def Register : Byte := 2

def Query : Byte := 3

def Response : Byte := 4

def Handshake : Byte := 5

def ErrorMsg : Byte := 6

def AICapabilityAdvertise : Byte := 7

def AICapabilityRequest : Byte := 8

def AIStreamStart : Byte := 9

def AIStreamData : Byte := 10

def AIStreamEnd : Byte := 11

def MCPBridgeAdvertise : Byte := 12

def MCPBridgeRequest : Byte := 13

def MCPBridgeResponse : Byte := 14

/-- ErrorCode constants (types.go), uint16; values follow Go's iota, which
continues across the groups of one const block. -/

def ErrInvalidVersion : Nat := 100

def ErrInvalidMessageType : Nat := 101

def ErrInvalidPayload : Nat := 102

def ErrUnauthorized : Nat := 203

def ErrForbidden : Nat := 204

def ErrInvalidCredentials : Nat := 205

def ErrCapabilityNotFound : Nat := 306

def ErrCapabilityUnavailable : Nat := 307

def ErrInvalidCapabilityFormat : Nat := 308

def ErrMCPEndpointUnavailable : Nat := 409

def ErrMCPProtocolMismatch : Nat := 410

def ErrMCPAuthenticationFailed : Nat := 411

/-- Capability (types.go); Metadata map modelled as an association list,
the InteractionType uint8 as a Byte. -/
structure Capability where
  id : String
  name : String
  type : String
  version : String
  interaction : Byte
  metadata : List (String × String)
  mcpEnabled : Bool
deriving DecidableEq

/-- MCPBridge (handler.go); LastUpdated held as its nanosecond Unix value. -/
structure MCPBridge where
  id : String
  endpoint : String
  protocol : String
  dataTypes : List String
  metadata : List (String × String)
  lastUpdated : Int
deriving DecidableEq

/-- Abstract model of handler-level JSON payloads.  Go stores json.Marshal
output in Message.Payload; here each marshalled shape is a tag, and
json.Unmarshal into a given target succeeds exactly on the matching tag. -/
inductive PayloadData where
  | none
  | raw (bytes : List Byte)
  | capability (c : Capability)
  | query (capabilityType : String) (mcpEnabled : Bool)
  | bridge (b : MCPBridge)
  | bridgeRequest (bridgeId : String) (dataType : String)
  | capabilityList (cs : List Capability)
  | errorInfo (code : Nat) (text : String)
deriving DecidableEq

/-- A Message as the handler sees it: the payload bytes replaced by their
abstract JSON content. -/
structure HMessage where
  version : Byte
  type : Byte
  payload : PayloadData
  timestamp : Int
deriving DecidableEq

/-- json.Unmarshal of a payload into a Capability. -/
def decodeCapability : PayloadData → Option Capability
  | .capability c => some c
  | _ => Option.none

/-- json.Unmarshal of a payload into the query struct of handleQuery. -/
def decodeQuery : PayloadData → Option (String × Bool)
  | .query t e => some (t, e)
  | _ => Option.none

/-- json.Unmarshal of a payload into an MCPBridge. -/
def decodeBridge : PayloadData → Option MCPBridge
  | .bridge b => some b
  | _ => Option.none

/-- json.Unmarshal of a payload into the request struct of
handleMCPBridgeRequest. -/
def decodeBridgeRequest : PayloadData → Option (String × String)
  | .bridgeRequest i t => some (i, t)
  | _ => Option.none

/-- Handler (handler.go): the two registries (Go maps modelled as
association lists) and the two injected callbacks, modelled as pure
fallible functions. -/
structure Handler where
  capabilities : List (String × Capability)
  mcpBridges : List (String × MCPBridge)
  onMessage : Option (HMessage → Except String Unit)
  onMCPBridge : Option (MCPBridge → Except String Unit)

/-- NewHandler (handler.go): empty registries. -/
def NewHandler (onMessage : Option (HMessage → Except String Unit))
    (onMCPBridge : Option (MCPBridge → Except String Unit)) : Handler :=
  { capabilities := [], mcpBridges := [], onMessage := onMessage,
    onMCPBridge := onMCPBridge }

/-- Go map read m[k]. -/
def mapLookup {α : Type} (m : List (String × α)) (k : String) : Option α :=
  (m.find? fun p => p.1 == k).map Prod.snd

/-- Go map write m[k] = v: replace in place when the key is present,
append otherwise. -/
def mapInsert {α : Type} (m : List (String × α)) (k : String) (v : α) :
    List (String × α) :=
  if m.any (fun p => p.1 == k) then
    m.map fun p => if p.1 == k then (k, v) else p
  else m ++ [(k, v)]

/-- RegisterCapability (handler.go): reject an empty ID, otherwise upsert.
The Go method mutates the receiver and returns error; here it returns the
new handler state together with the error value. -/
def RegisterCapability (h : Handler) (c : Capability) :
    Handler × Except String Unit :=
  if c.id = "" then (h, .error "capability ID required")
  else ({ h with capabilities := mapInsert h.capabilities c.id c }, .ok ())

/-- RegisterMCPBridge (handler.go): reject an empty ID; otherwise store the
bridge, then invoke the notification callback, wrapping its error. -/
def RegisterMCPBridge (h : Handler) (b : MCPBridge) :
    Handler × Except String Unit :=
  if b.id = "" then (h, .error "bridge ID required")
  else
    let h' := { h with mcpBridges := mapInsert h.mcpBridges b.id b }
    match h.onMCPBridge with
    | Option.none => (h', .ok ())
    | some f =>
        match f b with
        | .ok _ => (h', .ok ())
        | .error e => (h', .error ("mcp bridge notification failed: " ++ e))

/-- createErrorMessage (handler.go).  The json.Marshal of the error struct
cannot fail, so the model is total; `now` stands for time.Now(). -/
def createErrorMessage (now : Int) (code : Nat) (text : String) : HMessage :=
  { version := V1, type := ErrorMsg, payload := .errorInfo code text,
    timestamp := now }

/-- handleHello (handler.go): a Hello response with no payload. -/
def handleHello (now : Int) : HMessage :=
  { version := V1, type := Hello, payload := .none, timestamp := now }

/-- handleRegister (handler.go). -/
def handleRegister (h : Handler) (now : Int) (msg : HMessage) :
    Handler × Except String (Option HMessage) :=
  match decodeCapability msg.payload with
  | Option.none =>
      (h, .ok (some (createErrorMessage now ErrInvalidPayload "invalid capability format")))
  | some c =>
      match RegisterCapability h c with
      | (h', .error e) =>
          (h', .ok (some (createErrorMessage now ErrInvalidCapabilityFormat e)))
      | (h', .ok _) =>
          (h', .ok (some { version := V1, type := Response, payload := .none,
                           timestamp := now }))

/-- handleQuery (handler.go): filter the capability registry by type and,
when the query's mcpEnabled is set, by the capability's mcpEnabled. -/
def handleQuery (h : Handler) (now : Int) (msg : HMessage) : HMessage :=
  match decodeQuery msg.payload with
  | Option.none => createErrorMessage now ErrInvalidPayload "invalid query format"
  | some (ctype, mcpe) =>
      let found :=
        (h.capabilities.filter fun p =>
          p.2.type == ctype && (!mcpe || p.2.mcpEnabled)).map Prod.snd
      { version := V1, type := Response, payload := .capabilityList found,
        timestamp := now }

/-- handleMCPBridgeAdvertise (handler.go). -/
def handleMCPBridgeAdvertise (h : Handler) (now : Int) (msg : HMessage) :
    Handler × Except String (Option HMessage) :=
  match decodeBridge msg.payload with
  | Option.none =>
      (h, .ok (some (createErrorMessage now ErrInvalidPayload "invalid MCP bridge format")))
  | some b =>
      match RegisterMCPBridge h b with
      | (h', .error e) =>
          (h', .ok (some (createErrorMessage now ErrMCPEndpointUnavailable e)))
      | (h', .ok _) =>
          (h', .ok (some { version := V1, type := Response, payload := .none,
                           timestamp := now }))

/-- handleMCPBridgeRequest (handler.go): look up the bridge, check the
requested data type against its DataTypes, answer with the full record. -/
def handleMCPBridgeRequest (h : Handler) (now : Int) (msg : HMessage) : HMessage :=
  match decodeBridgeRequest msg.payload with
  | Option.none => createErrorMessage now ErrInvalidPayload "invalid bridge request format"
  | some (bid, dt) =>
      match mapLookup h.mcpBridges bid with
      | Option.none => createErrorMessage now ErrMCPEndpointUnavailable "bridge not found"
      | some bridge =>
          if bridge.dataTypes.contains dt then
            { version := V1, type := MCPBridgeResponse, payload := .bridge bridge,
              timestamp := now }
          else createErrorMessage now ErrMCPProtocolMismatch "unsupported data type"

/-- HandleMessage (handler.go): dispatch on the message type; unknown types
go to the injected generic callback when present. -/
def HandleMessage (h : Handler) (now : Int) (msg : HMessage) :
    Handler × Except String (Option HMessage) :=
  if msg.type = Hello then (h, .ok (some (handleHello now)))
  else if msg.type = Register then handleRegister h now msg
  else if msg.type = Query then (h, .ok (some (handleQuery h now msg)))
  else if msg.type = MCPBridgeAdvertise then handleMCPBridgeAdvertise h now msg
  else if msg.type = MCPBridgeRequest then (h, .ok (some (handleMCPBridgeRequest h now msg)))
  else
    match h.onMessage with
    | Option.none => (h, .ok Option.none)
    | some f =>
        match f msg with
        | .ok _ => (h, .ok Option.none)
        | .error e => (h, .error ("message handler error: " ++ e))

/-- Sequential registration of a list of capabilities, keeping the evolving
handler state and dropping the per-call error values. -/
def registerAll (h : Handler) (cs : List Capability) : Handler :=
  cs.foldl (fun h' c => (RegisterCapability h' c).1) h

/-- handleTCPConnection (pkg/network/server.go), data path only: read the
six header bytes of the connection's incoming byte stream, deserialize
them, read the declared payload on success, hand the message to the
handler (abstracted as handlerFn), and return the serialized response
bytes written back, if any.  Option.none means the connection is closed
with nothing written; a Deserialize panic would kill the task before any
write, so on this connection it is likewise observed as nothing written
(and that branch is unreachable here, since the 6-byte header always hits
the too-short error first). -/
def handleTCPConnection (handlerFn : Message → Except String (Option Message))
    (incoming : List Byte) : Option (List Byte) :=
  match Deserialize (incoming.take 6) with
  | .error _ => Option.none
  | .panicked _ => Option.none
  | .ok msg0 =>
      let msg := if 0 < msg0.payloadSize then
          { msg0 with payload := (incoming.drop 6).take msg0.payloadSize }
        else msg0
      match handlerFn msg with
      | .error _ => Option.none
      | .ok Option.none => Option.none
      | .ok (some resp) => resp.Serialize.toOption

/-- Concrete message fixture for the round-trip witness. -/
def mC2 : Message :=
  { version := 1, type := 2, payloadSize := 0, payload := [7, 8], timestamp := -5 }

/-- Concrete message whose payload length 2^32 - 1 is uint32-representable
yet makes Deserialize panic on the serialized buffer: the uint32 slice
index 6 + PayloadSize wraps to 5. -/
def mC2big : Message :=
  { version := 1, type := 2, payloadSize := 0,
    payload := List.replicate (2 ^ 32 - 1) 0, timestamp := 0 }

/-- Concrete message fixture for the serializer-format witness. -/
def mC4 : Message :=
  { version := 3, type := 4, payloadSize := 0, payload := [9], timestamp := 7 }

/-- Concrete oversized-payload fixture for the serializer-format witness. -/
def mC4big : Message :=
  { version := 3, type := 4, payloadSize := 0, payload := List.replicate (2 ^ 32) 0,
    timestamp := 0 }

/-- Concrete capability fixture. -/
def capA : Capability :=
  { id := "a", name := "A", type := "DISCOVER", version := "1", interaction := 1,
    metadata := [], mcpEnabled := true }

/-- Concrete capability fixture with a second id. -/
def capB : Capability :=
  { id := "b", name := "B", type := "DISCOVER", version := "1", interaction := 1,
    metadata := [], mcpEnabled := false }

/-- Concrete capability fixture sharing capA's id (for the overwrite case). -/
def capA2 : Capability :=
  { id := "a", name := "A2", type := "NEGOTIATE", version := "2", interaction := 2,
    metadata := [], mcpEnabled := false }

/-- Capability fixture with an empty id. -/
def emptyCap : Capability :=
  { id := "", name := "", type := "", version := "", interaction := 1,
    metadata := [], mcpEnabled := false }

/-- Concrete bridge fixture. -/
def brB : MCPBridge :=
  { id := "b1", endpoint := "mcp://test.endpoint/v1", protocol := "MCP/1.0",
    dataTypes := ["x"], metadata := [], lastUpdated := 0 }

/-- Bridge fixture with an empty id. -/
def emptyBridge : MCPBridge :=
  { id := "", endpoint := "", protocol := "", dataTypes := [], metadata := [],
    lastUpdated := 0 }

/-- Handler fixture holding one capability and one bridge, no callbacks. -/
def hFix : Handler :=
  { capabilities := [("a", capA)], mcpBridges := [("b1", brB)],
    onMessage := Option.none, onMCPBridge := Option.none }

/-- Handler fixture whose bridge-notification callback always fails. -/
def hCb : Handler :=
  { capabilities := [], mcpBridges := [], onMessage := Option.none,
    onMCPBridge := some fun _ => .error "boom" }

/-- Handler fixture whose generic message callback always fails. -/
def hMsgErr : Handler :=
  { capabilities := [], mcpBridges := [], onMessage := some fun _ => .error "cb",
    onMCPBridge := Option.none }

/-- Handler fixture with no callbacks at all. -/
def hNone : Handler := NewHandler Option.none Option.none

/-- Query message fixture. -/
def mQuery : HMessage :=
  { version := 1, type := Query, payload := .query "DISCOVER" true, timestamp := 0 }

/-- Bridge-request fixture for a supported data type. -/
def mReqX : HMessage :=
  { version := 1, type := MCPBridgeRequest, payload := .bridgeRequest "b1" "x",
    timestamp := 0 }

/-- Bridge-request fixture for an unsupported data type. -/
def mReqY : HMessage :=
  { version := 1, type := MCPBridgeRequest, payload := .bridgeRequest "b1" "y",
    timestamp := 0 }

/-- Bridge-request fixture for an unknown bridge id. -/
def mReqZ : HMessage :=
  { version := 1, type := MCPBridgeRequest, payload := .bridgeRequest "zz" "x",
    timestamp := 0 }

/-- Message fixture of a documented-but-unimplemented type. -/
def mUnknown : HMessage :=
  { version := 1, type := AICapabilityAdvertise, payload := .none, timestamp := 0 }

end ARN

namespace ARN

theorem beBytes_length (w v : Nat) : (beBytes w v).length = w := by
  induction w with
  | zero => rfl
  | succ w ih => simp [beBytes, ih]

theorem beRead_beBytes (w v : Nat) : beRead (beBytes w v) = v % 256 ^ w := by
  induction w with
  | zero => simp [beBytes, beRead, Nat.mod_one]
  | succ w ih =>
      simp only [beBytes, beRead, beBytes_length, ih]
      rw [pow_succ, Nat.mod_mul]
      ring

theorem beRead_lt (bs : List Byte) : beRead bs < 256 ^ bs.length := by
  induction bs with
  | nil => simp [beRead]
  | cons b rest ih =>
      simp only [beRead, List.length_cons]
      have hb : b.val < 256 := b.isLt
      calc b.val * 256 ^ rest.length + beRead rest
          < b.val * 256 ^ rest.length + 256 ^ rest.length := by omega
        _ = (b.val + 1) * 256 ^ rest.length := by ring
        _ ≤ 256 * 256 ^ rest.length := Nat.mul_le_mul_right _ (by omega)
        _ = 256 ^ (rest.length + 1) := by ring

theorem declaredSize_lt (data : List Byte) : declaredSize data < 2 ^ 32 := by
  have h := beRead_lt ((data.drop 2).take 4)
  have hlen : ((data.drop 2).take 4).length ≤ 4 := (data.drop 2).length_take_le 4
  have hmono : (256 : Nat) ^ ((data.drop 2).take 4).length ≤ 256 ^ 4 :=
    Nat.pow_le_pow_right (by omega) hlen
  have h44 : (256 : Nat) ^ 4 = 2 ^ 32 := by norm_num
  unfold declaredSize
  omega

end ARN

namespace ARN

theorem serialize_ok (m : Message) (hp : m.payload.length < 2 ^ 32) :
    m.Serialize = .ok (m.version :: m.type ::
      (beBytes 4 m.payload.length ++ m.payload ++ beBytes 8 (toUint64 m.timestamp))) := by
  unfold Message.Serialize
  rw [if_neg (by omega)]

theorem wire_chunks (v t : Byte) (p b8 : List Byte)
    (hp : p.length < 2 ^ 32) (hb8 : b8.length = 8) :
    declaredSize (v :: t :: (beBytes 4 p.length ++ p ++ b8)) = p.length ∧
    (v :: t :: (beBytes 4 p.length ++ p ++ b8)).length = 14 + p.length ∧
    ((v :: t :: (beBytes 4 p.length ++ p ++ b8)).drop 2).take 4 = beBytes 4 p.length ∧
    ((v :: t :: (beBytes 4 p.length ++ p ++ b8)).drop 6).take p.length = p ∧
    ((v :: t :: (beBytes 4 p.length ++ p ++ b8)).drop 6).drop p.length = b8 := by
  have h4 : (beBytes 4 p.length).length = 4 := beBytes_length 4 p.length
  have hd2 : (v :: t :: (beBytes 4 p.length ++ p ++ b8)).drop 2
      = beBytes 4 p.length ++ (p ++ b8) := by
    rw [← List.append_assoc]
    rfl
  have hd6 : (v :: t :: (beBytes 4 p.length ++ p ++ b8)).drop 6 = p ++ b8 := by
    show (beBytes 4 p.length ++ p ++ b8).drop 4 = p ++ b8
    rw [List.append_assoc]
    exact List.drop_left' h4
  have htake : ((v :: t :: (beBytes 4 p.length ++ p ++ b8)).drop 2).take 4
      = beBytes 4 p.length := by
    rw [hd2]
    exact List.take_left' h4
  refine ⟨?_, ?_, htake, ?_, ?_⟩
  · unfold declaredSize
    rw [htake, beRead_beBytes]
    exact Nat.mod_eq_of_lt hp
  · simp [List.length_append, h4, beBytes_length]
    omega
  · rw [hd6]
    exact List.take_left p b8
  · rw [hd6]
    exact List.drop_left p b8

theorem int64_roundtrip (t : Int) (h1 : -(2 ^ 63) ≤ t) (h2 : t < 2 ^ 63) :
    int64OfUint64 (beRead (beBytes 8 (toUint64 t))) = t := by
  rw [beRead_beBytes]
  have h8 : (256 : Nat) ^ 8 = 2 ^ 64 := by norm_num
  unfold toUint64 int64OfUint64
  rw [h8]
  have hmod : (t % 2 ^ 64).toNat % 2 ^ 64 = (t % 2 ^ 64).toNat := by omega
  rw [hmod]
  split <;> omega

theorem deserialize_serialized (v t : Byte) (p b8 : List Byte)
    (hp : p.length < 2 ^ 32 - 6) (hb8 : b8.length = 8) :
    Deserialize (v :: t :: (beBytes 4 p.length ++ p ++ b8)) =
      .ok { version := v, type := t, payloadSize := p.length, payload := p,
            timestamp := int64OfUint64 (beRead b8) } := by
  obtain ⟨hds, hlen, -, htakep, hdropp⟩ := wire_chunks v t p b8 (by omega) hb8
  have hd68 : ((v :: t :: (beBytes 4 p.length ++ p ++ b8)).drop (6 + p.length)).take 8
      = b8 := by
    rw [← List.drop_drop, hdropp]
    exact List.take_of_length_le (le_of_eq hb8)
  have hmod : (6 + p.length) % 2 ^ 32 = 6 + p.length := Nat.mod_eq_of_lt (by omega)
  have hsub : 6 + p.length - 6 = p.length := by omega
  unfold Deserialize
  rw [hds, hlen, hmod]
  rw [if_neg (by omega)]
  rw [if_neg (by
    have h14 : 6 + p.length + 8 = 14 + p.length := by omega
    rw [h14]
    exact not_not_intro rfl)]
  rw [if_neg (by omega)]
  rw [if_neg (by omega)]
  rw [hsub, htakep, hd68]
  rfl

end ARN

namespace ARN

/-- C1: the claim states that the per-connection TCP task decodes the 6-byte
header, reads the declared payload, calls the Handler, and writes back any
response.  In the code the 6-byte header is passed to Deserialize, which
rejects every input shorter than 14 bytes, so no accepted connection ever
reaches the Handler and nothing is ever written back: for every handler
function and every incoming byte stream, handleTCPConnection closes the
connection without a response. -/
theorem tcp_connection_never_responds
    (f : Message → Except String (Option Message)) (incoming : List Byte) :
    handleTCPConnection f incoming = Option.none := by
  unfold handleTCPConnection Deserialize
  rw [if_pos (lt_of_le_of_lt (incoming.length_take_le 6) (by norm_num))]

/-- C2 (amended): for every message whose payload length is under
2^32 - 6 — so that Go's uint32 slice index 6 + PayloadSize cannot wrap —
and whose timestamp is representable as a 64-bit nanosecond Unix time,
Deserialize after Serialize succeeds and reproduces version, type, payload
bytes, and timestamp exactly.  (Payload lengths 2^32 - 6 .. 2^32 - 1 are
uint32-representable and serialize fine, but Deserialize then panics at
the wrapped slice index; see the counterexample.) -/
theorem serialize_deserialize_roundtrip (m : Message)
    (hp : m.payload.length < 2 ^ 32 - 6)
    (ht1 : -(2 ^ 63) ≤ m.timestamp) (ht2 : m.timestamp < 2 ^ 63) :
    ∃ bs m', m.Serialize = .ok bs ∧ Deserialize bs = .ok m' ∧
      m'.version = m.version ∧ m'.type = m.type ∧
      m'.payload = m.payload ∧ m'.timestamp = m.timestamp := by
  refine ⟨_, _, serialize_ok m (by omega), deserialize_serialized m.version m.type
    m.payload (beBytes 8 (toUint64 m.timestamp)) hp (beBytes_length 8 _), rfl, rfl,
    rfl, ?_⟩
  exact int64_roundtrip m.timestamp ht1 ht2

/-- C2 counterexample: the payload length 2^32 - 1 is representable in an
unsigned 32-bit integer and Serialize succeeds on it, but Deserialize of
the serialized buffer panics at the wrapped uint32 slice index
data[6:5] instead of succeeding, so the round trip fails on the claim's
stated domain. -/
theorem roundtrip_panics_on_maximal_payload :
    ∃ bs, mC2big.Serialize = .ok bs ∧
      Deserialize bs = .panicked "slice bounds out of range" := by
  have hplen : mC2big.payload.length = 2 ^ 32 - 1 := by
    rw [show mC2big.payload = List.replicate (2 ^ 32 - 1) (0 : Byte) from rfl,
      List.length_replicate]
  have hp : mC2big.payload.length < 2 ^ 32 := by omega
  refine ⟨_, serialize_ok mC2big hp, ?_⟩
  obtain ⟨hds, hlen, -, -, -⟩ := wire_chunks mC2big.version mC2big.type mC2big.payload
    (beBytes 8 (toUint64 mC2big.timestamp)) hp (beBytes_length 8 _)
  rw [hplen] at hds hlen
  unfold Deserialize
  rw [hplen, hds, hlen]
  rw [if_neg (by norm_num)]
  rw [if_neg (not_not_intro (by norm_num))]
  rw [if_pos (Or.inl (by norm_num))]

/-- C2 witness: the round trip evaluated on a concrete message with a
two-byte payload and a negative (pre-1970) nanosecond timestamp. -/
theorem serialize_deserialize_roundtrip_witness :
    ∃ bs m', mC2.Serialize = .ok bs ∧ Deserialize bs = .ok m' ∧
      m'.version = mC2.version ∧ m'.type = mC2.type ∧
      m'.payload = mC2.payload ∧ m'.timestamp = mC2.timestamp :=
  serialize_deserialize_roundtrip mC2 (by norm_num [mC2]) (by norm_num [mC2])
    (by norm_num [mC2])

/-- C3 (amended): Deserialize on any buffer under 14 bytes fails with the
"message too short" error; on any buffer of length at least 14 whose length
is not congruent modulo 2^32 to 6 + declaredPayloadLength + 8 it fails with
the "invalid message size" error (the Go comparison is made on uint32
values, hence the congruence rather than the claimed exact equality); in
every other case it succeeds when the declared payload length is under
2^32 - 6, and panics at the wrapped uint32 slice index
data[6 : 6+declared] when the declared length is 2^32 - 6 or more. -/
theorem deserialize_size_check (data : List Byte) :
    (data.length < 14 → Deserialize data = .error "message too short") ∧
    (14 ≤ data.length →
      data.length % 2 ^ 32 ≠ (6 + declaredSize data + 8) % 2 ^ 32 →
      Deserialize data = .error "invalid message size") ∧
    (14 ≤ data.length →
      data.length % 2 ^ 32 = (6 + declaredSize data + 8) % 2 ^ 32 →
      declaredSize data < 2 ^ 32 - 6 →
      ∃ m, Deserialize data = .ok m) ∧
    (14 ≤ data.length →
      data.length % 2 ^ 32 = (6 + declaredSize data + 8) % 2 ^ 32 →
      2 ^ 32 - 6 ≤ declaredSize data →
      Deserialize data = .panicked "slice bounds out of range") := by
  have hdlt := declaredSize_lt data
  refine ⟨fun h => ?_, fun h1 h2 => ?_, fun h1 h2 h3 => ?_, fun h1 h2 h3 => ?_⟩ <;>
    unfold Deserialize
  · rw [if_pos h]
  · rw [if_neg (by omega), if_pos h2]
  · have hmod : (6 + declaredSize data) % 2 ^ 32 = 6 + declaredSize data :=
      Nat.mod_eq_of_lt (by omega)
    rw [if_neg (by omega), if_neg (not_not_intro h2), hmod, if_neg (by omega),
      if_neg (by omega)]
    exact ⟨_, rfl⟩
  · have hmod : (6 + declaredSize data) % 2 ^ 32 = 6 + declaredSize data - 2 ^ 32 := by
      omega
    rw [if_neg (by omega), if_neg (not_not_intro h2), hmod,
      if_pos (Or.inl (by omega))]

/-- C3 witness: the four branches evaluated concretely: a 5-byte buffer is
too short; a 15-byte all-zero buffer (declared length 0) is a size
mismatch; a 14-byte all-zero buffer is accepted; a buffer of length
2^32 + 8 declaring payload length 2^32 - 6 passes the wrapped size check
and panics. -/
theorem deserialize_size_check_witness :
    Deserialize (List.replicate 5 (0 : Byte)) = .error "message too short" ∧
    Deserialize (List.replicate 15 (0 : Byte)) = .error "invalid message size" ∧
    (∃ m, Deserialize (List.replicate 14 (0 : Byte)) = .ok m) ∧
    Deserialize (List.replicate 2 (0 : Byte) ++ beBytes 4 (2 ^ 32 - 6) ++
        List.replicate (2 ^ 32 + 2) (0 : Byte)) =
      .panicked "slice bounds out of range" := by
  have hlen4 : (List.replicate 2 (0 : Byte) ++ beBytes 4 (2 ^ 32 - 6) ++
      List.replicate (2 ^ 32 + 2) (0 : Byte)).length = 2 ^ 32 + 8 := by
    rw [List.length_append, List.length_append, List.length_replicate,
      List.length_replicate, beBytes_length]
    norm_num
  have hds4 : declaredSize (List.replicate 2 (0 : Byte) ++ beBytes 4 (2 ^ 32 - 6) ++
      List.replicate (2 ^ 32 + 2) (0 : Byte)) = 2 ^ 32 - 6 := by
    unfold declaredSize
    rw [List.append_assoc, List.drop_left' (by rw [List.length_replicate]),
      List.take_left' (beBytes_length 4 _), beRead_beBytes]
    norm_num
  refine ⟨(deserialize_size_check _).1 (by decide),
    (deserialize_size_check _).2.1 (by decide) (by decide),
    (deserialize_size_check _).2.2.1 (by decide) (by decide) (by decide),
    (deserialize_size_check _).2.2.2 ?_ ?_ ?_⟩
  · rw [hlen4]
    norm_num
  · rw [hlen4, hds4]
    norm_num
  · exact hds4.ge

/-- C3 counterexample: a buffer of 2^32 + 14 zero bytes declares payload
length 0, so its total length differs from 6 + 0 + 8 = 14, yet Deserialize
accepts it: the Go size check compares uint32(len(data)) with
6 + declared + 8 in wrapping 32-bit arithmetic, and 2^32 + 14 wraps to 14.
This refutes the claim that every length-at-least-14 buffer whose total
length does not equal 6 + declaredPayloadLength + 8 is rejected. -/
theorem deserialize_size_check_cex :
    14 ≤ (List.replicate (2 ^ 32 + 14) (0 : Byte)).length ∧
    (List.replicate (2 ^ 32 + 14) (0 : Byte)).length ≠
      6 + declaredSize (List.replicate (2 ^ 32 + 14) (0 : Byte)) + 8 ∧
    ∃ m, Deserialize (List.replicate (2 ^ 32 + 14) (0 : Byte)) = .ok m := by
  have hds : declaredSize (List.replicate (2 ^ 32 + 14) (0 : Byte)) = 0 := by
    unfold declaredSize
    rw [List.drop_replicate, List.take_replicate]
    have hmin : min 4 (2 ^ 32 + 14 - 2) = 4 := by norm_num
    rw [hmin]
    rfl
  refine ⟨by rw [List.length_replicate]; norm_num,
    by rw [hds, List.length_replicate]; norm_num, ?_⟩
  unfold Deserialize
  rw [if_neg (by rw [List.length_replicate]; norm_num), hds,
    if_neg (not_not_intro (by rw [List.length_replicate]; norm_num [Nat.add_mod_left])),
    if_neg (by rw [List.length_replicate]; norm_num),
    if_neg (by rw [List.length_replicate]; norm_num)]
  exact ⟨_, rfl⟩

/-- C4: for every message whose payload length fits in uint32, Serialize
emits, in order, the version byte, the type byte, a 4-byte big-endian
length equal to the payload length, the payload verbatim, and the 8-byte
big-endian unsigned (two's-complement) nanosecond Unix timestamp, for a
total of 14 + payloadLength bytes; a payload of length at least 2^32 makes
Serialize fail with the size error. -/
theorem serialize_format (m : Message) :
    (m.payload.length < 2 ^ 32 →
      ∃ bs, m.Serialize = .ok bs ∧
        bs.length = 14 + m.payload.length ∧
        bs.take 2 = [m.version, m.type] ∧
        (bs.drop 2).take 4 = beBytes 4 m.payload.length ∧
        beRead ((bs.drop 2).take 4) = m.payload.length ∧
        (bs.drop 6).take m.payload.length = m.payload ∧
        (bs.drop 6).drop m.payload.length = beBytes 8 (toUint64 m.timestamp)) ∧
    (2 ^ 32 ≤ m.payload.length → m.Serialize = .error "payload too large") := by
  constructor
  · intro hp
    obtain ⟨hds, hlen, htake4, htakep, hdropp⟩ := wire_chunks m.version m.type
      m.payload (beBytes 8 (toUint64 m.timestamp)) hp (beBytes_length 8 _)
    refine ⟨_, serialize_ok m hp, hlen, rfl, htake4, ?_, htakep, hdropp⟩
    rw [htake4, beRead_beBytes]
    exact Nat.mod_eq_of_lt hp
  · intro hp
    unfold Message.Serialize
    rw [if_pos (by omega)]

/-- C4 witness: the success branch evaluated on a one-byte payload and the
failure branch on a 2^32-byte payload. -/
theorem serialize_format_witness :
    (∃ bs, mC4.Serialize = .ok bs ∧
      bs.length = 14 + mC4.payload.length ∧
      bs.take 2 = [mC4.version, mC4.type] ∧
      (bs.drop 2).take 4 = beBytes 4 mC4.payload.length ∧
      beRead ((bs.drop 2).take 4) = mC4.payload.length ∧
      (bs.drop 6).take mC4.payload.length = mC4.payload ∧
      (bs.drop 6).drop mC4.payload.length = beBytes 8 (toUint64 mC4.timestamp)) ∧
    mC4big.Serialize = .error "payload too large" :=
  ⟨(serialize_format mC4).1 (by norm_num [mC4]),
   (serialize_format mC4big).2 (by
     have hlen : mC4big.payload.length = 2 ^ 32 := by
       rw [show mC4big.payload = List.replicate (2 ^ 32) (0 : Byte) from rfl,
         List.length_replicate]
     omega)⟩

end ARN

namespace ARN

theorem any_key_iff {α : Type} (m : List (String × α)) (k : String) :
    (m.any fun p => p.1 == k) = true ↔ k ∈ m.map Prod.fst := by
  simp [List.any_eq_true, List.mem_map, beq_iff_eq]

theorem mapInsert_fresh {α : Type} (m : List (String × α)) (k : String) (v : α)
    (h : k ∉ m.map Prod.fst) : mapInsert m k v = m ++ [(k, v)] := by
  unfold mapInsert
  rw [if_neg (fun hc => h ((any_key_iff m k).mp hc))]

theorem length_mapInsert_mem {α : Type} (m : List (String × α)) (k : String) (v : α)
    (h : k ∈ m.map Prod.fst) : (mapInsert m k v).length = m.length := by
  unfold mapInsert
  rw [if_pos ((any_key_iff m k).mpr h)]
  exact List.length_map m _

theorem find_replace {α : Type} (m : List (String × α)) (k : String) (v : α)
    (h : k ∈ m.map Prod.fst) :
    (m.map fun p => if p.1 == k then (k, v) else p).find? (fun p => p.1 == k)
      = some (k, v) := by
  induction m with
  | nil => simp at h
  | cons p rest ih =>
      by_cases hpk : p.1 = k
      · have hhead : (if (p.1 == k) = true then (k, v) else p) = (k, v) := by
          simp [beq_iff_eq, hpk]
        simp only [List.map_cons, hhead]
        exact @List.find?_cons_of_pos _ (fun q => q.1 == k) (k, v) _ (by simp)
      · have hk : k ∈ rest.map Prod.fst := by
          rcases List.mem_map.mp h with ⟨q, hq, hqk⟩
          rcases List.mem_cons.mp hq with rfl | hq'
          · exact absurd hqk hpk
          · exact List.mem_map.mpr ⟨q, hq', hqk⟩
        have hhead : (if (p.1 == k) = true then (k, v) else p) = p := by
          simp [beq_iff_eq, hpk]
        have hb : ¬ ((p.1 == k) = true) := by simp [beq_iff_eq, hpk]
        simp only [List.map_cons, hhead]
        exact (@List.find?_cons_of_neg _ (fun q => q.1 == k) p _ hb).trans (ih hk)

theorem find_append_fresh {α : Type} (m : List (String × α)) (k : String) (v : α)
    (h : k ∉ m.map Prod.fst) :
    (m ++ [(k, v)]).find? (fun p => p.1 == k) = some (k, v) := by
  induction m with
  | nil => simp [List.find?]
  | cons p rest ih =>
      have hpk : p.1 ≠ k := fun he => h (List.mem_map.mpr ⟨p, List.mem_cons_self p rest, he⟩)
      have hk : k ∉ rest.map Prod.fst := fun hm => h (by
        rcases List.mem_map.mp hm with ⟨q, hq, hqk⟩
        exact List.mem_map.mpr ⟨q, List.mem_cons_of_mem p hq, hqk⟩)
      have hb : ¬ ((p.1 == k) = true) := by simp [beq_iff_eq, hpk]
      rw [List.cons_append]
      exact (@List.find?_cons_of_neg _ (fun q => q.1 == k) p _ hb).trans (ih hk)

theorem mapLookup_mapInsert {α : Type} (m : List (String × α)) (k : String) (v : α) :
    mapLookup (mapInsert m k v) k = some v := by
  unfold mapLookup mapInsert
  by_cases h : k ∈ m.map Prod.fst
  · rw [if_pos ((any_key_iff m k).mpr h), find_replace m k v h]
    rfl
  · rw [if_neg (fun hc => h ((any_key_iff m k).mp hc)), find_append_fresh m k v h]
    rfl

end ARN

namespace ARN

theorem registerCapability_fresh (h : Handler) (c : Capability)
    (hid : c.id ≠ "") (hf : c.id ∉ h.capabilities.map Prod.fst) :
    (RegisterCapability h c).1.capabilities = h.capabilities ++ [(c.id, c)] := by
  unfold RegisterCapability
  rw [if_neg hid]
  exact mapInsert_fresh h.capabilities c.id c hf

theorem registerAll_length (cs : List Capability) : ∀ h : Handler,
    (∀ c ∈ cs, c.id ≠ "") → (cs.map Capability.id).Nodup →
    (∀ c ∈ cs, c.id ∉ h.capabilities.map Prod.fst) →
    (registerAll h cs).capabilities.length = h.capabilities.length + cs.length := by
  induction cs with
  | nil =>
      intro h _ _ _
      simp [registerAll]
  | cons c rest ih =>
      intro h hne hnd hfresh
      have hid : c.id ≠ "" := hne c (List.mem_cons_self c rest)
      have hcf : c.id ∉ h.capabilities.map Prod.fst := hfresh c (List.mem_cons_self c rest)
      have hstep : (RegisterCapability h c).1.capabilities = h.capabilities ++ [(c.id, c)] :=
        registerCapability_fresh h c hid hcf
      have hra : registerAll h (c :: rest) = registerAll (RegisterCapability h c).1 rest := rfl
      have hnd' : (rest.map Capability.id).Nodup := by
        rw [List.map_cons, List.nodup_cons] at hnd
        exact hnd.2
      have hcid : c.id ∉ rest.map Capability.id := by
        rw [List.map_cons, List.nodup_cons] at hnd
        exact hnd.1
      have hfresh' : ∀ c' ∈ rest, c'.id ∉ (RegisterCapability h c).1.capabilities.map Prod.fst := by
        intro c' hc'
        rw [hstep, List.map_append]
        intro hmem
        rcases List.mem_append.mp hmem with hl | hr
        · exact hfresh c' (List.mem_cons_of_mem c hc') hl
        · have : c'.id = c.id := by simpa using hr
          exact hcid (this ▸ List.mem_map.mpr ⟨c', hc', rfl⟩)
      have hlen' : (RegisterCapability h c).1.capabilities.length
          = h.capabilities.length + 1 := by
        rw [hstep, List.length_append, List.length_cons, List.length_nil]
      rw [hra, ih (RegisterCapability h c).1 (fun c' hc' => hne c' (List.mem_cons_of_mem c hc'))
        hnd' hfresh', hlen', List.length_cons]
      omega

theorem handleMessage_register_case (h : Handler) (now : Int) (msg : HMessage)
    (ht : msg.type = Register) :
    HandleMessage h now msg = handleRegister h now msg := by
  unfold HandleMessage
  rw [ht, if_neg (by decide), if_pos rfl]

theorem handleMessage_query_case (h : Handler) (now : Int) (msg : HMessage)
    (ht : msg.type = Query) :
    HandleMessage h now msg = (h, .ok (some (handleQuery h now msg))) := by
  unfold HandleMessage
  rw [ht, if_neg (by decide), if_neg (by decide), if_pos rfl]

theorem handleMessage_bridgeRequest_case (h : Handler) (now : Int) (msg : HMessage)
    (ht : msg.type = MCPBridgeRequest) :
    HandleMessage h now msg = (h, .ok (some (handleMCPBridgeRequest h now msg))) := by
  unfold HandleMessage
  rw [ht, if_neg (by decide), if_neg (by decide), if_neg (by decide),
    if_neg (by decide), if_pos rfl]

theorem handleMessage_default_case (h : Handler) (now : Int) (msg : HMessage)
    (h1 : msg.type ≠ Hello) (h2 : msg.type ≠ Register) (h3 : msg.type ≠ Query)
    (h4 : msg.type ≠ MCPBridgeAdvertise) (h5 : msg.type ≠ MCPBridgeRequest) :
    HandleMessage h now msg =
      (match h.onMessage with
        | Option.none => (h, .ok Option.none)
        | some f =>
            match f msg with
            | .ok _ => (h, .ok Option.none)
            | .error e => (h, .error ("message handler error: " ++ e))) := by
  unfold HandleMessage
  rw [if_neg h1, if_neg h2, if_neg h3, if_neg h4, if_neg h5]

theorem queryCond_iff (c : Capability) (ct : String) (e : Bool) :
    (c.type == ct && (!e || c.mcpEnabled)) = true ↔
      (c.type = ct ∧ (e = true → c.mcpEnabled = true)) := by
  cases e <;> cases hm : c.mcpEnabled <;> simp [beq_iff_eq, hm]

end ARN

namespace ARN

/-- C5: for every bridge with a non-empty id, RegisterMCPBridge stores the
bridge before invoking the notification callback; when the callback fails,
the bridge is nevertheless found in the registry afterwards and the call
returns a failure wrapping the callback's error. -/
theorem bridge_stored_despite_callback_failure (h : Handler) (b : MCPBridge)
    (f : MCPBridge → Except String Unit) (e : String)
    (hid : b.id ≠ "") (hcb : h.onMCPBridge = some f) (herr : f b = .error e) :
    mapLookup (RegisterMCPBridge h b).1.mcpBridges b.id = some b ∧
    (RegisterMCPBridge h b).2 = .error ("mcp bridge notification failed: " ++ e) := by
  unfold RegisterMCPBridge
  rw [if_neg hid]
  simp only [hcb, herr]
  exact ⟨mapLookup_mapInsert _ _ _, trivial⟩

/-- C5 witness: a concrete bridge registered on a handler whose callback
always fails with "boom". -/
theorem bridge_stored_despite_callback_failure_witness :
    mapLookup (RegisterMCPBridge hCb brB).1.mcpBridges brB.id = some brB ∧
    (RegisterMCPBridge hCb brB).2 =
      .error ("mcp bridge notification failed: " ++ "boom") :=
  bridge_stored_despite_callback_failure hCb brB (fun _ => .error "boom") "boom"
    (by decide) rfl rfl

/-- C6: a Query message whose payload decodes to a capability-type filter
and an mcpEnabled flag yields a success response whose payload lists
exactly the registered capabilities of that type that additionally are
mcp-enabled whenever the flag is set; with no match the payload is the
empty list, not an error. -/
theorem query_filters_capabilities (h : Handler) (now : Int) (msg : HMessage)
    (ct : String) (e : Bool) (htype : msg.type = Query)
    (hpl : msg.payload = PayloadData.query ct e) :
    ∃ cs, HandleMessage h now msg =
        (h, .ok (some
          { version := V1, type := Response,
            payload := PayloadData.capabilityList cs, timestamp := now })) ∧
      (∀ c, c ∈ cs ↔ ((∃ k, (k, c) ∈ h.capabilities) ∧ c.type = ct ∧
        (e = true → c.mcpEnabled = true))) ∧
      ((∀ c : Capability, ¬ ((∃ k, (k, c) ∈ h.capabilities) ∧ c.type = ct ∧
        (e = true → c.mcpEnabled = true))) → cs = []) := by
  have hq : handleQuery h now msg =
      { version := V1, type := Response,
        payload := PayloadData.capabilityList
          ((h.capabilities.filter fun p =>
            p.2.type == ct && (!e || p.2.mcpEnabled)).map Prod.snd),
        timestamp := now } := by
    unfold handleQuery
    rw [hpl]
    rfl
  have hmem : ∀ c : Capability,
      c ∈ (h.capabilities.filter fun p =>
          p.2.type == ct && (!e || p.2.mcpEnabled)).map Prod.snd ↔
        ((∃ k, (k, c) ∈ h.capabilities) ∧ c.type = ct ∧
          (e = true → c.mcpEnabled = true)) := by
    intro c
    constructor
    · intro hc
      obtain ⟨p, hp, hpc⟩ := List.mem_map.mp hc
      obtain ⟨hpm, hcond⟩ := List.mem_filter.mp hp
      subst hpc
      obtain ⟨h1, h2⟩ := (queryCond_iff p.2 ct e).mp hcond
      exact ⟨⟨p.1, hpm⟩, h1, h2⟩
    · rintro ⟨⟨k, hk⟩, h1, h2⟩
      exact List.mem_map.mpr ⟨(k, c),
        List.mem_filter.mpr ⟨hk, (queryCond_iff c ct e).mpr ⟨h1, h2⟩⟩, rfl⟩
  refine ⟨_, by rw [handleMessage_query_case h now msg htype, hq], hmem, fun hnone => ?_⟩
  rw [List.eq_nil_iff_forall_not_mem]
  intro c hc
  exact hnone c ((hmem c).mp hc)

/-- C6 witness: querying type DISCOVER with mcpEnabled true on a handler
holding one matching capability. -/
theorem query_filters_capabilities_witness :
    ∃ cs, HandleMessage hFix 0 mQuery =
        (hFix, .ok (some
          { version := V1, type := Response,
            payload := PayloadData.capabilityList cs, timestamp := 0 })) ∧
      (∀ c, c ∈ cs ↔ ((∃ k, (k, c) ∈ hFix.capabilities) ∧ c.type = "DISCOVER" ∧
        (true = true → c.mcpEnabled = true))) ∧
      ((∀ c : Capability, ¬ ((∃ k, (k, c) ∈ hFix.capabilities) ∧ c.type = "DISCOVER" ∧
        (true = true → c.mcpEnabled = true))) → cs = []) :=
  query_filters_capabilities hFix 0 mQuery "DISCOVER" true rfl rfl

/-- C7: an MCPBridgeRequest message whose payload decodes to a bridge id
and a data type yields, in order: an MCPEndpointUnavailable error message
when the bridge id is unknown; an MCPProtocolMismatch error message when
the bridge exists but does not list the requested data type; otherwise an
MCPBridgeResponse message carrying the full bridge record. -/
theorem bridge_request_dispatch (h : Handler) (now : Int) (msg : HMessage)
    (bid dt : String) (htype : msg.type = MCPBridgeRequest)
    (hpl : msg.payload = PayloadData.bridgeRequest bid dt) :
    (mapLookup h.mcpBridges bid = Option.none →
      HandleMessage h now msg = (h, .ok (some
        { version := V1, type := ErrorMsg,
          payload := PayloadData.errorInfo ErrMCPEndpointUnavailable "bridge not found",
          timestamp := now }))) ∧
    (∀ b, mapLookup h.mcpBridges bid = some b → dt ∉ b.dataTypes →
      HandleMessage h now msg = (h, .ok (some
        { version := V1, type := ErrorMsg,
          payload := PayloadData.errorInfo ErrMCPProtocolMismatch "unsupported data type",
          timestamp := now }))) ∧
    (∀ b, mapLookup h.mcpBridges bid = some b → dt ∈ b.dataTypes →
      HandleMessage h now msg = (h, .ok (some
        { version := V1, type := MCPBridgeResponse, payload := PayloadData.bridge b,
          timestamp := now }))) := by
  rw [handleMessage_bridgeRequest_case h now msg htype]
  refine ⟨fun hlk => ?_, fun b hlk hnot => ?_, fun b hlk hmem => ?_⟩
  · have hbr : handleMCPBridgeRequest h now msg =
        createErrorMessage now ErrMCPEndpointUnavailable "bridge not found" := by
      unfold handleMCPBridgeRequest
      simp only [hpl, decodeBridgeRequest, hlk]
    rw [hbr]
    rfl
  · have hbr : handleMCPBridgeRequest h now msg =
        createErrorMessage now ErrMCPProtocolMismatch "unsupported data type" := by
      unfold handleMCPBridgeRequest
      simp only [hpl, decodeBridgeRequest, hlk]
      rw [if_neg (by simpa using hnot)]
    rw [hbr]
    rfl
  · have hbr : handleMCPBridgeRequest h now msg =
        { version := V1, type := MCPBridgeResponse, payload := PayloadData.bridge b,
          timestamp := now } := by
      unfold handleMCPBridgeRequest
      simp only [hpl, decodeBridgeRequest, hlk]
      rw [if_pos (by simpa using hmem)]
    rw [hbr]

/-- C7 witness: the three branches evaluated on a handler holding one
bridge with id b1 serving data type x: unknown id zz, unsupported type y,
and the supported request. -/
theorem bridge_request_dispatch_witness :
    HandleMessage hFix 0 mReqZ = (hFix, .ok (some
      { version := V1, type := ErrorMsg,
        payload := PayloadData.errorInfo ErrMCPEndpointUnavailable "bridge not found",
        timestamp := 0 })) ∧
    HandleMessage hFix 0 mReqY = (hFix, .ok (some
      { version := V1, type := ErrorMsg,
        payload := PayloadData.errorInfo ErrMCPProtocolMismatch "unsupported data type",
        timestamp := 0 })) ∧
    HandleMessage hFix 0 mReqX = (hFix, .ok (some
      { version := V1, type := MCPBridgeResponse, payload := PayloadData.bridge brB,
        timestamp := 0 })) :=
  ⟨(bridge_request_dispatch hFix 0 mReqZ "zz" "x" rfl rfl).1 rfl,
   (bridge_request_dispatch hFix 0 mReqY "b1" "y" rfl rfl).2.1 brB rfl (by decide),
   (bridge_request_dispatch hFix 0 mReqX "b1" "x" rfl rfl).2.2 brB rfl (by decide)⟩

/-- C8: for every message whose type is none of Hello, Register, Query,
MCPBridgeAdvertise, MCPBridgeRequest, HandleMessage invokes the generic
callback when present, propagating its failure as the call's failure, and
in every other case returns no response and no error. -/
theorem unknown_type_generic_callback (h : Handler) (now : Int) (msg : HMessage)
    (h1 : msg.type ≠ Hello) (h2 : msg.type ≠ Register) (h3 : msg.type ≠ Query)
    (h4 : msg.type ≠ MCPBridgeAdvertise) (h5 : msg.type ≠ MCPBridgeRequest) :
    (h.onMessage = Option.none → HandleMessage h now msg = (h, .ok Option.none)) ∧
    (∀ f, h.onMessage = some f →
      (∀ e, f msg = .error e →
        HandleMessage h now msg = (h, .error ("message handler error: " ++ e))) ∧
      (f msg = .ok () → HandleMessage h now msg = (h, .ok Option.none))) := by
  refine ⟨fun hn => ?_, fun f hf => ⟨fun e he => ?_, fun hok => ?_⟩⟩ <;>
    rw [handleMessage_default_case h now msg h1 h2 h3 h4 h5]
  · rw [hn]
  · rw [hf]
    show (match f msg with
      | .ok _ => (h, Except.ok Option.none)
      | .error e => (h, Except.error ("message handler error: " ++ e))) =
      (h, Except.error ("message handler error: " ++ e))
    rw [he]
  · rw [hf]
    show (match f msg with
      | .ok _ => (h, Except.ok Option.none)
      | .error e => (h, Except.error ("message handler error: " ++ e))) =
      (h, Except.ok Option.none)
    rw [hok]

/-- C8 witness: an AICapabilityAdvertise message processed by a handler
with no callback (no response, no error) and by a handler whose callback
fails with "cb" (the failure is propagated). -/
theorem unknown_type_generic_callback_witness :
    HandleMessage hNone 0 mUnknown = (hNone, .ok Option.none) ∧
    HandleMessage hMsgErr 0 mUnknown =
      (hMsgErr, .error ("message handler error: " ++ "cb")) :=
  ⟨(unknown_type_generic_callback hNone 0 mUnknown (by decide) (by decide) (by decide)
      (by decide) (by decide)).1 rfl,
   ((unknown_type_generic_callback hMsgErr 0 mUnknown (by decide) (by decide) (by decide)
      (by decide) (by decide)).2 (fun _ => .error "cb") rfl).1 "cb" rfl⟩

/-- C9: RegisterCapability rejects an empty id with an invalid-id error and
otherwise upserts: registering a list of capabilities with pairwise
distinct non-empty ids starting from a fresh handler yields exactly that
many registry entries, while re-registering an existing id keeps the entry
count unchanged and replaces the stored capability (last-write-wins). -/
theorem capability_registration_upsert (h : Handler) (c : Capability)
    (cs : List Capability) (onMsg : Option (HMessage → Except String Unit))
    (onBr : Option (MCPBridge → Except String Unit)) :
    (c.id = "" → RegisterCapability h c = (h, .error "capability ID required")) ∧
    ((∀ c' ∈ cs, c'.id ≠ "") → (cs.map Capability.id).Nodup →
      (registerAll (NewHandler onMsg onBr) cs).capabilities.length = cs.length) ∧
    (c.id ≠ "" → c.id ∈ h.capabilities.map Prod.fst →
      (RegisterCapability h c).1.capabilities.length = h.capabilities.length ∧
      mapLookup (RegisterCapability h c).1.capabilities c.id = some c) := by
  refine ⟨fun hid => ?_, fun hne hnd => ?_, fun hid hmem => ?_⟩
  · unfold RegisterCapability
    rw [if_pos hid]
  · have hlen := registerAll_length cs (NewHandler onMsg onBr) hne hnd
      (by intro c' hc'; simp [NewHandler])
    simpa [NewHandler] using hlen
  · constructor
    · unfold RegisterCapability
      rw [if_neg hid]
      exact length_mapInsert_mem h.capabilities c.id c hmem
    · unfold RegisterCapability
      rw [if_neg hid]
      exact mapLookup_mapInsert h.capabilities c.id c

/-- C9 witness: the empty id is rejected; registering capabilities with
ids a and b from a fresh handler yields two entries; re-registering id a
keeps one entry and replaces it. -/
theorem capability_registration_upsert_witness :
    RegisterCapability hFix emptyCap = (hFix, .error "capability ID required") ∧
    (registerAll (NewHandler Option.none Option.none) [capA, capB]).capabilities.length
      = [capA, capB].length ∧
    ((RegisterCapability hFix capA2).1.capabilities.length
        = hFix.capabilities.length ∧
      mapLookup (RegisterCapability hFix capA2).1.capabilities capA2.id
        = some capA2) :=
  ⟨(capability_registration_upsert hFix emptyCap [] Option.none Option.none).1 rfl,
   (capability_registration_upsert hFix emptyCap [capA, capB] Option.none
     Option.none).2.1 (by decide) (by decide),
   (capability_registration_upsert hFix capA2 [] Option.none Option.none).2.2
     (by decide) (by decide)⟩

/-- C10: registering a capability or a bridge with an empty id returns an
error and leaves both registries exactly as they were. -/
theorem failed_registration_atomic (h : Handler) (c : Capability) (b : MCPBridge) :
    (c.id = "" →
      (RegisterCapability h c).1.capabilities = h.capabilities ∧
      (RegisterCapability h c).1.mcpBridges = h.mcpBridges ∧
      ∃ e, (RegisterCapability h c).2 = .error e) ∧
    (b.id = "" →
      (RegisterMCPBridge h b).1.capabilities = h.capabilities ∧
      (RegisterMCPBridge h b).1.mcpBridges = h.mcpBridges ∧
      ∃ e, (RegisterMCPBridge h b).2 = .error e) := by
  constructor <;> intro hid
  · unfold RegisterCapability
    rw [if_pos hid]
    exact ⟨rfl, rfl, "capability ID required", rfl⟩
  · unfold RegisterMCPBridge
    rw [if_pos hid]
    exact ⟨rfl, rfl, "bridge ID required", rfl⟩

/-- C10 witness: the empty-id capability and bridge evaluated on a handler
holding one capability and one bridge. -/
theorem failed_registration_atomic_witness :
    ((RegisterCapability hFix emptyCap).1.capabilities = hFix.capabilities ∧
      (RegisterCapability hFix emptyCap).1.mcpBridges = hFix.mcpBridges ∧
      ∃ e, (RegisterCapability hFix emptyCap).2 = .error e) ∧
    ((RegisterMCPBridge hFix emptyBridge).1.capabilities = hFix.capabilities ∧
      (RegisterMCPBridge hFix emptyBridge).1.mcpBridges = hFix.mcpBridges ∧
      ∃ e, (RegisterMCPBridge hFix emptyBridge).2 = .error e) :=
  ⟨(failed_registration_atomic hFix emptyCap emptyBridge).1 rfl,
   (failed_registration_atomic hFix emptyCap emptyBridge).2 rfl⟩

end ARN
